import Mathlib

/-!
Verification of the LasReportV2 resource-aware LAS processing engine.

The Python sources are shallowly embedded over exact rationals (ℚ stands in
for Python floats; every concrete constant appearing in the claims under
scrutiny is exactly representable or the claimed property is robust to the
float/rational gap, as noted at each definition).  Fallible Python code
(code that can raise) is embedded with `Option`: `none` models an uncaught
exception such as `ZeroDivisionError`.
-/

/-- The Python `int(x)` conversion on a float: truncation toward zero. -/
def pytrunc (q : ℚ) : ℤ := if 0 ≤ q then ⌊q⌋ else -⌊-q⌋

namespace SystemUtils

/-- Embedding of `system_utils.validate_file_size` (src/system_utils.py:102-127).
The size of the file is passed directly in GB (the source divides the byte count by
1024³; we work with the resulting GB figure).  The `Exception` branch
(unreadable file) is outside the modelled domain: the size is assumed known.
The message strings are abbreviated; no claim depends on their text. -/
def validate_file_size (file_size_gb : ℚ) (max_size_gb : ℚ := 20) : Bool × String :=
  if file_size_gb > max_size_gb then
    (false, "exceeds limit")
  else
    (true, "File size OK")

/-- Embedding of `system_utils.calculate_optimal_threads`
(src/system_utils.py:180-217).  `none` models the `ZeroDivisionError` Python
raises when `total_ram_needed_gb` is 0 while the 50% budget is negative (the
only way to reach the `ratio` division with a zero divisor). -/
def calculate_optimal_threads (total_ram_needed_gb available_ram_gb : ℚ)
    (use_convex_hull : Bool) : Option ℤ :=
  let base_threads : ℤ := if use_convex_hull then 4 else 12
  let safe_ram_budget := available_ram_gb * (1/2)
  if total_ram_needed_gb ≤ safe_ram_budget then
    some base_threads
  else if total_ram_needed_gb = 0 then
    none
  else
    let scaled₀ := max 1 (pytrunc ((base_threads : ℚ) * (safe_ram_budget / total_ram_needed_gb)))
    some (min base_threads scaled₀)

/-- Embedding of `system_utils.calculate_optimal_threads_smart`
(src/system_utils.py:220-270).  The file list is represented by the list of
the sizes of the files in GB (the source sums `os.path.getsize` over the existing
files; a missing file would contribute size 0 and still be counted in the
length, which the size-list representation can also express with a 0 entry).
`none` models the `ZeroDivisionError` raised by
`safe_ram_for_processing / ram_per_concurrent_file` when the average file
size is 0. -/
def calculate_optimal_threads_smart (file_sizes_gb : List ℚ) (available_ram_gb : ℚ)
    (use_convex_hull : Bool) : Option ℤ :=
  if file_sizes_gb.isEmpty then
    some 1
  else
    let total_size_gb := file_sizes_gb.sum
    let avg_file_size_gb := total_size_gb / (file_sizes_gb.length : ℚ)
    let ram_per_concurrent_file := avg_file_size_gb * 1
    let safe_ram_for_processing := available_ram_gb * (9/10)
    if ram_per_concurrent_file = 0 then
      none
    else
      let max_threads_by_ram := max 1 (pytrunc (safe_ram_for_processing / ram_per_concurrent_file))
      let max_threads_base : ℤ := if use_convex_hull then 4 else 12
      some (max 1 (min max_threads_by_ram max_threads_base))

/-- The per-file planning formula as the spec describes it after amendment of
claim C4: average file size taken as the per-concurrent-file RAM cost with
factor 1.0, 90% of available RAM divided by that cost, truncated, clamped to
at least 1, capped at the mode ceiling (and never below 1). -/
def smart_per_file_amended (file_sizes_gb : List ℚ) (available_ram_gb : ℚ)
    (use_convex_hull : Bool) : ℤ :=
  let avg := file_sizes_gb.sum / (file_sizes_gb.length : ℚ)
  let cost := avg * 1
  let ram_bound := max 1 (pytrunc (available_ram_gb * (9/10) / cost))
  max 1 (min ram_bound (if use_convex_hull then 4 else 12))

/-- Modelled from the spec: the per-file planning formula exactly as claim C4
states it, with the per-concurrent-file cost equal to the average file size
multiplied by the SizeEstimator factor 1.5.  Used only to exhibit that the
source deviates from this formula. -/
def smart_per_file_claimed (file_sizes_gb : List ℚ) (available_ram_gb : ℚ)
    (use_convex_hull : Bool) : ℤ :=
  let avg := file_sizes_gb.sum / (file_sizes_gb.length : ℚ)
  let cost := avg * (3/2)
  let ram_bound := max 1 (pytrunc (available_ram_gb * (9/10) / cost))
  max 1 (min ram_bound (if use_convex_hull then 4 else 12))

end SystemUtils

namespace Processor

/-- Embedding of the `LASFileInfo` dataclass of src/processor.py (lines 36-62).
`filepath` is kept as the path string; numeric float fields become ℚ. -/
structure LASFileInfo where
  filename : String
  filepath : String
  point_count : ℕ := 0
  point_density : ℚ := 0
  acreage_detailed : ℚ := 0
  min_x : ℚ := 0
  max_x : ℚ := 0
  min_y : ℚ := 0
  max_y : ℚ := 0
  min_z : ℚ := 0
  max_z : ℚ := 0
  scale_x : ℚ := 0
  scale_y : ℚ := 0
  scale_z : ℚ := 0
  offset_x : ℚ := 0
  offset_y : ℚ := 0
  offset_z : ℚ := 0
  crs_info : String := ""
  crs_units : String := "unknown"
  point_format : String := ""
  raw_output : String := ""
  file_size_mb : ℚ := 0
  processing_time : ℚ := 0
  error : Option String := none
deriving DecidableEq

/-- The aggregate-statistics dictionary built by
`LASProcessor._calculate_aggregates` (src/processor.py:582-641), with its
fixed key set as a record. -/
structure AggregateStats where
  total_files : ℕ
  valid_files : ℕ
  failed_files : ℕ
  total_points : ℕ
  avg_point_density : ℚ
  total_file_size_mb : ℚ
  overall_min_x : ℚ
  overall_max_x : ℚ
  overall_min_y : ℚ
  overall_max_y : ℚ
  overall_min_z : ℚ
  overall_max_z : ℚ
deriving DecidableEq

/-- Python `min()` over a list; the empty case is the `ValueError` branch of
`_calculate_aggregates`, which the except arm of the source maps to 0. -/
def pymin : List ℚ → ℚ
  | [] => 0
  | a :: as => as.foldl min a

/-- Python `max()` over a list; empty case as in `pymin`. -/
def pymax : List ℚ → ℚ
  | [] => 0
  | a :: as => as.foldl max a

/-- Embedding of `LASProcessor._calculate_aggregates` (src/processor.py:582-641). -/
def calculate_aggregates (results : List LASFileInfo) : AggregateStats :=
  let valid_results := results.filter (fun r => r.error.isNone)
  if valid_results.isEmpty then
    { total_files := results.length
      valid_files := 0
      failed_files := results.length
      total_points := 0
      avg_point_density := 0
      total_file_size_mb := 0
      overall_min_x := 0
      overall_max_x := 0
      overall_min_y := 0
      overall_max_y := 0
      overall_min_z := 0
      overall_max_z := 0 }
  else
    { total_files := results.length
      valid_files := valid_results.length
      failed_files := results.length - valid_results.length
      total_points := (valid_results.map (fun r => r.point_count)).sum
      avg_point_density :=
        (valid_results.map (fun r => r.point_density)).sum / (valid_results.length : ℚ)
      total_file_size_mb := (results.map (fun r => r.file_size_mb)).sum
      overall_min_x := pymin (valid_results.map (fun r => r.min_x))
      overall_max_x := pymax (valid_results.map (fun r => r.max_x))
      overall_min_y := pymin (valid_results.map (fun r => r.min_y))
      overall_max_y := pymax (valid_results.map (fun r => r.max_y))
      overall_min_z := pymin (valid_results.map (fun r => r.min_z))
      overall_max_z := pymax (valid_results.map (fun r => r.max_z)) }

/-- Embedding of `LASProcessor._polygon_area` (src/processor.py:438-459):
the shoelace formula over the vertex list, with index `(i + 1) % n` inlined
in the tuple unpacking as in the source. -/
def polygon_area (vertices : List (ℚ × ℚ)) : ℚ :=
  if vertices.length < 3 then 0
  else
    let n := vertices.length
    let area := ((List.range n).map (fun i =>
      let p := vertices.getD i (0, 0)
      let q := vertices.getD ((i + 1) % n) (0, 0)
      p.1 * q.2 - q.1 * p.2)).sum
    |area| / 2

/-- The area-to-acres conversion inlined in
`LASProcessor._calculate_convex_hull_acreage` (src/processor.py:391-404):
square-feet areas are multiplied by `1.0 / 43560.0` acres per square foot,
anything else is treated as square meters and divided by `4046.8564224`. -/
def acres_from_hull_area (area : ℚ) (crs_units : String) : ℚ :=
  if crs_units = "us_survey_feet" then area * (1 / 43560)
  else if crs_units = "feet" then area * (1 / 43560)
  else area / (40468564224 / 10000000)

/-- The error record built for every input file when batch validation fails
in `LASProcessor.process_files` (src/processor.py:179-185). -/
def oversize_error_info (name : String) : LASFileInfo :=
  { filename := name, filepath := name, error := some "File exceeds 20GB limit" }

/-- The `results.sort(key=lambda x: x.filename)` step of `process_files`
(src/processor.py:233); the stable Python sort modelled by a stable merge sort
on the filename key. -/
def sort_by_filename (results : List LASFileInfo) : List LASFileInfo :=
  results.mergeSort (fun a b => a.filename ≤ b.filename)

/-- Embedding of `LASProcessor.process_files` (src/processor.py:144-238).
A file is a (name, size-in-GB) pair.  The per-file extraction work performed
by the thread pool is abstracted as `extract`, a function from a file to the
`LASFileInfo` its task produces (each submitted task yields exactly one
result; cancellation is not modelled).  The validation phase and the
oversized fail-fast path are embedded directly from the source. -/
def process_files (files : List (String × ℚ))
    (extract : String → ℚ → LASFileInfo) : List LASFileInfo × AggregateStats :=
  let oversized_files := files.filter
    (fun f => (SystemUtils.validate_file_size f.2 20).1 = false)
  if oversized_files ≠ [] then
    let results := files.map (fun f => oversize_error_info f.1)
    (results, calculate_aggregates results)
  else
    let results := sort_by_filename (files.map (fun f => extract f.1 f.2))
    (results, calculate_aggregates results)

end Processor

namespace PyOnly

/-- Embedding of the `LASFileInfo` dataclass of
src/PythonOnly/processor_python_only.py (lines 36-81), which extends the
lasinfo-based variant with per-return and per-classification counts. -/
structure LASFileInfo where
  filename : String
  filepath : String
  point_count : ℕ := 0
  point_density : ℚ := 0
  acreage_detailed : ℚ := 0
  min_x : ℚ := 0
  max_x : ℚ := 0
  min_y : ℚ := 0
  max_y : ℚ := 0
  min_z : ℚ := 0
  max_z : ℚ := 0
  scale_x : ℚ := 0
  scale_y : ℚ := 0
  scale_z : ℚ := 0
  offset_x : ℚ := 0
  offset_y : ℚ := 0
  offset_z : ℚ := 0
  crs_info : String := ""
  crs_units : String := "unknown"
  point_format : String := ""
  raw_output : String := ""
  file_size_mb : ℚ := 0
  processing_time : ℚ := 0
  error : Option String := none
  returns_1 : ℕ := 0
  returns_2 : ℕ := 0
  returns_3 : ℕ := 0
  returns_4 : ℕ := 0
  returns_5 : ℕ := 0
  classification_unclassified : ℕ := 0
  classification_ground : ℕ := 0
  classification_low_vegetation : ℕ := 0
  classification_medium_vegetation : ℕ := 0
  classification_high_vegetation : ℕ := 0
  classification_building : ℕ := 0
  classification_water : ℕ := 0
  classification_noise : ℕ := 0
  classification_key_point : ℕ := 0
  classification_reserved : ℕ := 0
deriving DecidableEq

/-- The aggregate-statistics dictionary built by
`PythonLASProcessor._calculate_aggregates`
(src/PythonOnly/processor_python_only.py:188-264). -/
structure AggregateStats where
  total_files : ℕ
  valid_files : ℕ
  failed_files : ℕ
  total_points : ℕ
  avg_point_density : ℚ
  total_file_size_mb : ℚ
  overall_min_x : ℚ
  overall_max_x : ℚ
  overall_min_y : ℚ
  overall_max_y : ℚ
  overall_min_z : ℚ
  overall_max_z : ℚ
  total_returns_1 : ℕ
  total_returns_2 : ℕ
  total_returns_3 : ℕ
  total_returns_4 : ℕ
  total_returns_5 : ℕ
  total_classification_unclassified : ℕ
  total_classification_ground : ℕ
  total_classification_low_vegetation : ℕ
  total_classification_medium_vegetation : ℕ
  total_classification_high_vegetation : ℕ
  total_classification_building : ℕ
  total_classification_water : ℕ
  total_classification_noise : ℕ
  total_classification_key_point : ℕ
  total_classification_reserved : ℕ
deriving DecidableEq

/-- The zero-valued aggregate record the source returns when no valid result
exists; `total_files` and `failed_files` are the input length
(src/PythonOnly/processor_python_only.py:200-214 returns no return/class keys
in that branch; consumers read absent keys as 0, so the record carries 0s). -/
def empty_aggregates (n : ℕ) : AggregateStats :=
  { total_files := n, valid_files := 0, failed_files := n, total_points := 0
    avg_point_density := 0, total_file_size_mb := 0
    overall_min_x := 0, overall_max_x := 0, overall_min_y := 0
    overall_max_y := 0, overall_min_z := 0, overall_max_z := 0
    total_returns_1 := 0, total_returns_2 := 0, total_returns_3 := 0
    total_returns_4 := 0, total_returns_5 := 0
    total_classification_unclassified := 0, total_classification_ground := 0
    total_classification_low_vegetation := 0
    total_classification_medium_vegetation := 0
    total_classification_high_vegetation := 0
    total_classification_building := 0, total_classification_water := 0
    total_classification_noise := 0, total_classification_key_point := 0
    total_classification_reserved := 0 }

/-- Embedding of `PythonLASProcessor._calculate_aggregates`
(src/PythonOnly/processor_python_only.py:188-264). -/
def calculate_aggregates (results : List LASFileInfo) : AggregateStats :=
  let valid_results := results.filter (fun r => r.error.isNone)
  if valid_results.isEmpty then
    empty_aggregates results.length
  else
    { total_files := results.length
      valid_files := valid_results.length
      failed_files := results.length - valid_results.length
      total_points := (valid_results.map (fun r => r.point_count)).sum
      avg_point_density :=
        (valid_results.map (fun r => r.point_density)).sum / (valid_results.length : ℚ)
      total_file_size_mb := (results.map (fun r => r.file_size_mb)).sum
      overall_min_x := Processor.pymin (valid_results.map (fun r => r.min_x))
      overall_max_x := Processor.pymax (valid_results.map (fun r => r.max_x))
      overall_min_y := Processor.pymin (valid_results.map (fun r => r.min_y))
      overall_max_y := Processor.pymax (valid_results.map (fun r => r.max_y))
      overall_min_z := Processor.pymin (valid_results.map (fun r => r.min_z))
      overall_max_z := Processor.pymax (valid_results.map (fun r => r.max_z))
      total_returns_1 := (valid_results.map (fun r => r.returns_1)).sum
      total_returns_2 := (valid_results.map (fun r => r.returns_2)).sum
      total_returns_3 := (valid_results.map (fun r => r.returns_3)).sum
      total_returns_4 := (valid_results.map (fun r => r.returns_4)).sum
      total_returns_5 := (valid_results.map (fun r => r.returns_5)).sum
      total_classification_unclassified :=
        (valid_results.map (fun r => r.classification_unclassified)).sum
      total_classification_ground :=
        (valid_results.map (fun r => r.classification_ground)).sum
      total_classification_low_vegetation :=
        (valid_results.map (fun r => r.classification_low_vegetation)).sum
      total_classification_medium_vegetation :=
        (valid_results.map (fun r => r.classification_medium_vegetation)).sum
      total_classification_high_vegetation :=
        (valid_results.map (fun r => r.classification_high_vegetation)).sum
      total_classification_building :=
        (valid_results.map (fun r => r.classification_building)).sum
      total_classification_water :=
        (valid_results.map (fun r => r.classification_water)).sum
      total_classification_noise :=
        (valid_results.map (fun r => r.classification_noise)).sum
      total_classification_key_point :=
        (valid_results.map (fun r => r.classification_key_point)).sum
      total_classification_reserved :=
        (valid_results.map (fun r => r.classification_reserved)).sum }

/-- The coordinate bounds of a LAS header (`header.min[0]`, `header.min[1]`,
`header.max[0]`, `header.max[1]`), the inputs of the coordinate-magnitude
CRS fallback heuristics. -/
structure Header where
  min_x : ℚ
  max_x : ℚ
  min_y : ℚ
  max_y : ℚ

/-- Embedding of `PythonLASProcessor._detect_units_from_coordinates`
(src/PythonOnly/processor_python_only.py:463-496). -/
def detect_units_from_coordinates (h : Header) : String :=
  let x_range := |h.max_x - h.min_x|
  let y_range := |h.max_y - h.min_y|
  if h.min_x > 1000000 ∧ h.max_x > 1000000 ∧
      h.min_y > 100000 ∧ h.max_y > 100000 ∧
      x_range > 1000 ∧ y_range > 1000 then
    "us_survey_feet"
  else if h.min_x > 100000 ∧ h.max_x > 100000 ∧
      h.min_y > 100000 ∧ h.max_y > 100000 ∧
      x_range > 1000 ∧ y_range > 1000 then
    "meters"
  else
    "meters"

/-- Embedding of `PythonLASProcessor._detect_crs_from_coordinates`
(src/PythonOnly/processor_python_only.py:498-534). -/
def detect_crs_from_coordinates (h : Header) : String :=
  if h.min_x > 1000000 ∧ h.max_x > 1000000 ∧
      h.min_y > 100000 ∧ h.max_y > 100000 then
    if h.min_x > 2900000 ∧ h.max_x < 3000000 ∧
        h.min_y > 300000 ∧ h.max_y < 400000 then
      "NAD83(2011) / Maine West (ftUS)"
    else
      "NAD83 / US State Plane (ftUS)"
  else if h.min_x > 100000 ∧ h.max_x > 100000 ∧
      h.min_y > 100000 ∧ h.max_y > 100000 then
    "WGS84 / UTM Zone (m)"
  else
    ""

/-- Embedding of `PythonLASProcessor._extract_crs_info`
(src/PythonOnly/processor_python_only.py:395-461) specialised to a header
carrying no metadata records (`header.vlrs` empty): the VLR loop is skipped,
leaving `crs_info = ""` and `crs_units = "unknown"`, after which both
coordinate-magnitude fallbacks fire unconditionally. -/
def extract_crs_info_nometa (h : Header) : String × String :=
  let crs_units := detect_units_from_coordinates h
  let crs_info := detect_crs_from_coordinates h
  (crs_info, crs_units)

/-- Embedding of `PythonLASProcessor._polygon_area`
(src/PythonOnly/processor_python_only.py:734-756); identical shoelace code to
the lasinfo variant except that the successor index is bound to `j` first. -/
def polygon_area (vertices : List (ℚ × ℚ)) : ℚ :=
  if vertices.length < 3 then 0
  else
    let n := vertices.length
    let area := ((List.range n).map (fun i =>
      let j := (i + 1) % n
      let p := vertices.getD i (0, 0)
      let q := vertices.getD j (0, 0)
      p.1 * q.2 - q.1 * p.2)).sum
    |area| / 2

/-- Embedding of `PythonLASProcessor._calculate_convex_hull_acreage`
(src/PythonOnly/processor_python_only.py:640-732) as a state transformer on
the result record.  Points are (x, y) pairs.  `hullFn` abstracts the scipy
`ConvexHull` followed by the `points_xy[hull.vertices]` selection; a `none`
result models the exception scipy raises on degenerate input, which the
source catches, leaving the record untouched.  `read_points` is the point
data the `las_data is None` branch re-reads from disk; the source binds it
to a local and never uses it, because every later step of the computation
sits in the `else` branch of `if las_data is None`. -/
def calculate_convex_hull_acreage
    (hullFn : List (ℚ × ℚ) → Option (List (ℚ × ℚ)))
    (read_points : List (ℚ × ℚ))
    (las_data : Option (List (ℚ × ℚ)))
    (file_info : LASFileInfo) : LASFileInfo :=
  match las_data with
  | none =>
    -- `las_data = las_file.read()` assigns a local; nothing further runs.
    let _ := read_points
    file_info
  | some pts =>
    if pts.length = 0 then file_info
    else
      match hullFn pts with
      | none => file_info
      | some hull_points =>
        let area := polygon_area hull_points
        if area > 0 then
          let acreage :=
            if file_info.crs_units = "us_survey_feet" then area * (1 / 43560)
            else if file_info.crs_units = "feet" then area * (1 / 43560)
            else area / (40468564224 / 10000000)
          let fi := { file_info with acreage_detailed := acreage }
          let area_sq_meters :=
            if file_info.crs_units = "us_survey_feet" then
              area * (3048006096 / 10000000000 : ℚ) ^ 2
            else if file_info.crs_units = "feet" then
              area * (3048 / 10000 : ℚ) ^ 2
            else area
          if area_sq_meters > 0 then
            { fi with point_density := (file_info.point_count : ℚ) / area_sq_meters }
          else fi
        else file_info

end PyOnly

/-- C9: the shoelace polygon-area function of the lasinfo-based processor and
the one of the Python-only processor are extensionally equal: on every list
of 2-D vertices they return the same value. -/
theorem C9_polygon_area_equiv :
    ∀ vs : List (ℚ × ℚ), Processor.polygon_area vs = PyOnly.polygon_area vs :=
  fun _ => rfl

/-- C10: in the Python-only processor, invoking the convex-hull routine with
`las_data = None` leaves the whole result record — in particular its
`acreage_detailed` and `point_density` fields — unchanged, for every choice
of hull algorithm, of re-read point data, and of prior record state. -/
theorem C10_none_las_data_frame
    (hullFn : List (ℚ × ℚ) → Option (List (ℚ × ℚ)))
    (read_points : List (ℚ × ℚ)) (fi : PyOnly.LASFileInfo) :
    PyOnly.calculate_convex_hull_acreage hullFn read_points none fi = fi ∧
    (PyOnly.calculate_convex_hull_acreage hullFn read_points none fi).acreage_detailed =
      fi.acreage_detailed ∧
    (PyOnly.calculate_convex_hull_acreage hullFn read_points none fi).point_density =
      fi.point_density :=
  ⟨rfl, rfl, rfl⟩

/-- C2 counterexample: a batch consisting of one zero-byte file makes the
per-file planner divide 90% of available RAM by a zero per-file cost, which
in Python raises `ZeroDivisionError` (modelled by `none`) instead of
returning a worker count in `[1, 12]`; the universal range property of the claim
is therefore false as stated. -/
theorem C2_counterexample :
    SystemUtils.calculate_optimal_threads_smart [0] 16 false = none := by
  simp [SystemUtils.calculate_optimal_threads_smart]

/-- C2 (amended): for every nonnegative total-RAM/available-RAM input the
batch-aggregate planner returns `n` with `1 ≤ n ≤ ceiling`, and for every
file list of nonzero total size (or the empty list) the per-file planner
does the same, where the ceiling is 4 when convex-hull mode is on and 12
otherwise and depends only on that flag; a batch of average size 0 instead
raises `ZeroDivisionError`. -/
theorem C2_thread_planner_range (total avail : ℚ) (sizes : List ℚ) (hull : Bool)
    (h1 : total ≠ 0 ∨ 0 ≤ avail) (h2 : sizes.sum ≠ 0 ∨ sizes = []) :
    (∃ n, SystemUtils.calculate_optimal_threads total avail hull = some n ∧
      1 ≤ n ∧ n ≤ (if hull then 4 else 12)) ∧
    (∃ m, SystemUtils.calculate_optimal_threads_smart sizes avail hull = some m ∧
      1 ≤ m ∧ m ≤ (if hull then 4 else 12)) := by
  have hbase : (1 : ℤ) ≤ if hull then 4 else 12 := by cases hull <;> norm_num
  constructor
  · by_cases hc : total ≤ avail * (1/2)
    · simp only [SystemUtils.calculate_optimal_threads]
      rw [if_pos hc]
      exact ⟨_, rfl, hbase, le_refl _⟩
    · have ht0 : ¬ total = 0 := by
        rcases h1 with ht | ha
        · exact ht
        · have hpos : 0 < total := lt_of_le_of_lt (by positivity) (lt_of_not_le hc)
          exact ne_of_gt hpos
      simp only [SystemUtils.calculate_optimal_threads]
      rw [if_neg hc, if_neg ht0]
      exact ⟨_, rfl, le_min hbase (le_max_left 1 _), min_le_left _ _⟩
  · rcases h2 with hs | hs
    · have hne : sizes ≠ [] := by
        intro he; exact hs (by simp [he])
      have hlen : ((sizes.length : ℚ)) ≠ 0 := by
        simpa using fun hl => hne (List.length_eq_zero.mp hl)
      have hram : ¬ sizes.sum / (sizes.length : ℚ) * 1 = 0 := by
        rw [mul_one]
        exact div_ne_zero hs hlen
      have hemp : ¬ sizes.isEmpty = true := by
        simpa [List.isEmpty_iff] using hne
      simp only [SystemUtils.calculate_optimal_threads_smart]
      rw [if_neg hemp, if_neg hram]
      exact ⟨_, rfl, le_max_left 1 _, max_le hbase (min_le_right _ _)⟩
    · subst hs
      exact ⟨1, by simp [SystemUtils.calculate_optimal_threads_smart], le_refl 1, hbase⟩

/-- C2 witness: the amended planner-range theorem instantiated at a 1 GB
batch with 16 GB available and a single 2 GB file, lightweight mode. -/
theorem C2_witness :
    (∃ n, SystemUtils.calculate_optimal_threads 1 16 false = some n ∧
      1 ≤ n ∧ n ≤ (if false then 4 else 12)) ∧
    (∃ m, SystemUtils.calculate_optimal_threads_smart [2] 16 false = some m ∧
      1 ≤ m ∧ m ≤ (if false then 4 else 12)) :=
  C2_thread_planner_range 1 16 [2] false (Or.inl (by norm_num)) (Or.inl (by simp))

/-- C4 counterexample: for a single 2 GB file with 10 GB available in
lightweight mode the source planner returns 4 workers (cost factor 1.0:
`int(9 / 2) = 4`), while the claimed formula with the SizeEstimator factor
1.5 would return `int(9 / 3) = 3`; the claim as stated is false. -/
theorem C4_counterexample :
    SystemUtils.calculate_optimal_threads_smart [2] 10 false = some 4 ∧
    SystemUtils.smart_per_file_claimed [2] 10 false = 3 := by
  constructor
  · have h : ((10:ℚ) * (9/10)) / (([2]:List ℚ).sum / (([2]:List ℚ).length : ℚ) * 1) = 9/2 := by
      norm_num
    have hf : ⌊(9:ℚ)/2⌋ = 4 := by
      rw [Int.floor_eq_iff]
      constructor <;> norm_num
    simp only [SystemUtils.calculate_optimal_threads_smart, List.isEmpty_cons, h]
    norm_num [pytrunc, hf]
  · have h : ((10:ℚ) * (9/10)) / (([2]:List ℚ).sum / (([2]:List ℚ).length : ℚ) * (3/2)) = 3 := by
      norm_num
    have hf : ⌊(3:ℚ)⌋ = 3 := by
      rw [Int.floor_eq_iff]
      constructor <;> norm_num
    simp only [SystemUtils.smart_per_file_claimed, h]
    norm_num [pytrunc, hf]

/-- C4 (amended): for every file list of nonzero total size, the per-file
planner equals the amended formula: average file size taken as the
per-concurrent-file cost with factor 1.0, 90% of available RAM divided by
that cost and truncated, clamped to at least 1, then capped at the mode
ceiling (and never below 1). -/
theorem C4_smart_per_file_formula (sizes : List ℚ) (avail : ℚ) (hull : Bool)
    (h : sizes.sum ≠ 0) :
    SystemUtils.calculate_optimal_threads_smart sizes avail hull =
      some (SystemUtils.smart_per_file_amended sizes avail hull) := by
  have hne : sizes ≠ [] := by
    intro he; exact h (by simp [he])
  have hlen : ((sizes.length : ℚ)) ≠ 0 := by
    simpa using fun hl => hne (List.length_eq_zero.mp hl)
  have hram : ¬ sizes.sum / (sizes.length : ℚ) * 1 = 0 := by
    rw [mul_one]
    exact div_ne_zero h hlen
  have hemp : ¬ sizes.isEmpty = true := by
    simpa [List.isEmpty_iff] using hne
  simp only [SystemUtils.calculate_optimal_threads_smart,
    SystemUtils.smart_per_file_amended]
  rw [if_neg hemp, if_neg hram]

/-- C4 witness: the amended formula theorem instantiated at a single 2 GB
file with 10 GB available in lightweight mode. -/
theorem C4_witness :
    SystemUtils.calculate_optimal_threads_smart [2] 10 false =
      some (SystemUtils.smart_per_file_amended [2] 10 false) :=
  C4_smart_per_file_formula [2] 10 false (by simp)

/-- C3: if any file of the submitted batch exceeds the 20 GB per-file cap,
`process_files` performs no extraction at all (its output is independent of
the extraction function), returns one error result per input file — the
in-cap files included — and the aggregate computed over those error
results. -/
theorem C3_oversize_fail_fast (files : List (String × ℚ))
    (e1 e2 : String → ℚ → Processor.LASFileInfo)
    (h : ∃ f ∈ files, 20 < f.2) :
    Processor.process_files files e1 = Processor.process_files files e2 ∧
    (Processor.process_files files e1).1 =
      files.map (fun f => Processor.oversize_error_info f.1) ∧
    (Processor.process_files files e1).1.length = files.length ∧
    (∀ r ∈ (Processor.process_files files e1).1, r.error ≠ none) ∧
    (Processor.process_files files e1).2 =
      Processor.calculate_aggregates
        (files.map (fun f => Processor.oversize_error_info f.1)) := by
  have hno : files.filter
      (fun f => (SystemUtils.validate_file_size f.2 20).1 = false) ≠ [] := by
    obtain ⟨f, hf, hgt⟩ := h
    intro hemp
    have hmem : f ∈ files.filter
        (fun f => (SystemUtils.validate_file_size f.2 20).1 = false) :=
      List.mem_filter.2 ⟨hf, by simp [SystemUtils.validate_file_size, hgt]⟩
    rw [hemp] at hmem
    exact absurd hmem (List.not_mem_nil f)
  have hres : Processor.process_files files e1 =
      (files.map (fun f => Processor.oversize_error_info f.1),
        Processor.calculate_aggregates
          (files.map (fun f => Processor.oversize_error_info f.1))) := by
    simp only [Processor.process_files, if_pos hno]
  have hres2 : Processor.process_files files e2 =
      (files.map (fun f => Processor.oversize_error_info f.1),
        Processor.calculate_aggregates
          (files.map (fun f => Processor.oversize_error_info f.1))) := by
    simp only [Processor.process_files, if_pos hno]
  refine ⟨hres.trans hres2.symm, ?_, ?_, ?_, ?_⟩
  · rw [hres]
  · rw [hres]
    simp
  · rw [hres]
    intro r hr
    obtain ⟨f, _, rfl⟩ := List.mem_map.1 hr
    simp [Processor.oversize_error_info]
  · rw [hres]

/-- C3 witness: the fail-fast theorem instantiated at the batch
[("a", 25 GB), ("b", 1 GB)] — "a" breaks the cap, and "b", though within the
cap, also comes back as an error result. -/
theorem C3_witness :
    (Processor.process_files [("a", 25), ("b", 1)]
        (fun n s => { filename := n, filepath := n, file_size_mb := s }) =
      Processor.process_files [("a", 25), ("b", 1)]
        (fun n _ => { filename := n, filepath := n })) ∧
    (Processor.process_files [("a", 25), ("b", 1)]
        (fun n s => { filename := n, filepath := n, file_size_mb := s })).1 =
      [("a", (25:ℚ)), ("b", 1)].map (fun f => Processor.oversize_error_info f.1) ∧
    (Processor.process_files [("a", 25), ("b", 1)]
        (fun n s => { filename := n, filepath := n, file_size_mb := s })).1.length =
      [("a", (25:ℚ)), ("b", 1)].length ∧
    (∀ r ∈ (Processor.process_files [("a", 25), ("b", 1)]
        (fun n s => { filename := n, filepath := n, file_size_mb := s })).1,
      r.error ≠ none) ∧
    (Processor.process_files [("a", 25), ("b", 1)]
        (fun n s => { filename := n, filepath := n, file_size_mb := s })).2 =
      Processor.calculate_aggregates
        ([("a", (25:ℚ)), ("b", 1)].map (fun f => Processor.oversize_error_info f.1)) :=
  C3_oversize_fail_fast [("a", 25), ("b", 1)]
    (fun n s => { filename := n, filepath := n, file_size_mb := s })
    (fun n _ => { filename := n, filepath := n })
    ⟨("a", 25), by simp, by norm_num⟩

/-- C5 counterexample: a header with no metadata and small bounds
(0 ≤ x ≤ 10, 0 ≤ y ≤ 10) makes both coordinate-magnitude windows miss, yet
the resolver returns unit "meters", not "unknown": the inconclusive default
of `_detect_units_from_coordinates` is "meters", so the claim is false as
stated. -/
theorem C5_counterexample :
    (PyOnly.extract_crs_info_nometa ⟨0, 10, 0, 10⟩).1 = "" ∧
    (PyOnly.extract_crs_info_nometa ⟨0, 10, 0, 10⟩).2 ≠ "unknown" := by
  constructor
  · norm_num [PyOnly.extract_crs_info_nometa, PyOnly.detect_crs_from_coordinates]
  · norm_num [PyOnly.extract_crs_info_nometa, PyOnly.detect_units_from_coordinates]
    decide

/-- C5 (amended): when no metadata record is present and the bounds match
neither the state-plane window nor the projected-meters window, the resolver
returns an empty label together with unit "meters" — the unknown-means-
meters assumption is applied inside the resolver itself rather than left to
callers. -/
theorem C5_inconclusive_default (hd : PyOnly.Header)
    (h1 : ¬(hd.min_x > 1000000 ∧ hd.max_x > 1000000 ∧
      hd.min_y > 100000 ∧ hd.max_y > 100000))
    (h2 : ¬(hd.min_x > 100000 ∧ hd.max_x > 100000 ∧
      hd.min_y > 100000 ∧ hd.max_y > 100000)) :
    PyOnly.extract_crs_info_nometa hd = ("", "meters") := by
  have h1' : ¬(hd.min_x > 1000000 ∧ hd.max_x > 1000000 ∧
      hd.min_y > 100000 ∧ hd.max_y > 100000 ∧
      |hd.max_x - hd.min_x| > 1000 ∧ |hd.max_y - hd.min_y| > 1000) :=
    fun ⟨a, b, c, d, _, _⟩ => h1 ⟨a, b, c, d⟩
  simp only [PyOnly.extract_crs_info_nometa, PyOnly.detect_units_from_coordinates,
    PyOnly.detect_crs_from_coordinates, if_neg h1', if_neg h1, if_neg h2, ite_self]

/-- C5 witness: the amended theorem instantiated at the small-bounds header
(0 ≤ x ≤ 10, 0 ≤ y ≤ 10). -/
theorem C5_witness :
    PyOnly.extract_crs_info_nometa ⟨0, 10, 0, 10⟩ = ("", "meters") :=
  C5_inconclusive_default ⟨0, 10, 0, 10⟩ (by norm_num) (by norm_num)

/-- C6: a metadata-free header with bounds X ∈ [2,000,000, 2,100,000] and
Y ∈ [300,000, 310,000] resolves, via the coordinate-magnitude fallback, to
unit "us_survey_feet" and a non-empty CRS label. -/
theorem C6_state_plane_window :
    (PyOnly.extract_crs_info_nometa ⟨2000000, 2100000, 300000, 310000⟩).2 =
      "us_survey_feet" ∧
    (PyOnly.extract_crs_info_nometa ⟨2000000, 2100000, 300000, 310000⟩).1 ≠ "" := by
  constructor
  · norm_num [PyOnly.extract_crs_info_nometa, PyOnly.detect_units_from_coordinates]
  · norm_num [PyOnly.extract_crs_info_nometa, PyOnly.detect_crs_from_coordinates]
    decide

/-- C7: on a result list in which every entry carries an error (the empty
list included), both aggregate calculators return, without failing, the
all-zero statistics record with `total_files` equal to the input length,
`failed_files = total_files` and `valid_files = 0`. -/
theorem C7_all_error_aggregates (rs1 : List Processor.LASFileInfo)
    (rs2 : List PyOnly.LASFileInfo)
    (h1 : ∀ r ∈ rs1, r.error ≠ none) (h2 : ∀ r ∈ rs2, r.error ≠ none) :
    Processor.calculate_aggregates rs1 =
      { total_files := rs1.length, valid_files := 0, failed_files := rs1.length
        total_points := 0, avg_point_density := 0, total_file_size_mb := 0
        overall_min_x := 0, overall_max_x := 0, overall_min_y := 0
        overall_max_y := 0, overall_min_z := 0, overall_max_z := 0 } ∧
    PyOnly.calculate_aggregates rs2 = PyOnly.empty_aggregates rs2.length := by
  have hf1 : rs1.filter (fun r => r.error.isNone) = [] :=
    List.filter_eq_nil_iff.2 (fun r hr => by
      simpa [Option.isNone_iff_eq_none] using h1 r hr)
  have hf2 : rs2.filter (fun r => r.error.isNone) = [] :=
    List.filter_eq_nil_iff.2 (fun r hr => by
      simpa [Option.isNone_iff_eq_none] using h2 r hr)
  constructor
  · simp [Processor.calculate_aggregates, hf1]
  · simp [PyOnly.calculate_aggregates, hf2]

/-- Filtering twice with the same predicate filters once. -/
theorem filter_idem {α : Type} (p : α → Bool) (l : List α) :
    (l.filter p).filter p = l.filter p := by
  rw [List.filter_filter]
  simp

/-- Dropping the error results from the input leaves every aggregate field of
the lasinfo-variant calculator unchanged except `total_file_size_mb`, which
sums the sizes of all results (error results included) whenever at least one
valid result exists. -/
theorem processor_error_isolation (rs : List Processor.LASFileInfo) :
    ((Processor.calculate_aggregates rs).total_points =
      (Processor.calculate_aggregates
        (rs.filter (fun r => r.error.isNone))).total_points) ∧
    ((Processor.calculate_aggregates rs).avg_point_density =
      (Processor.calculate_aggregates
        (rs.filter (fun r => r.error.isNone))).avg_point_density) ∧
    ((Processor.calculate_aggregates rs).overall_min_x =
      (Processor.calculate_aggregates
        (rs.filter (fun r => r.error.isNone))).overall_min_x) ∧
    ((Processor.calculate_aggregates rs).overall_max_x =
      (Processor.calculate_aggregates
        (rs.filter (fun r => r.error.isNone))).overall_max_x) ∧
    ((Processor.calculate_aggregates rs).overall_min_y =
      (Processor.calculate_aggregates
        (rs.filter (fun r => r.error.isNone))).overall_min_y) ∧
    ((Processor.calculate_aggregates rs).overall_max_y =
      (Processor.calculate_aggregates
        (rs.filter (fun r => r.error.isNone))).overall_max_y) ∧
    ((Processor.calculate_aggregates rs).overall_min_z =
      (Processor.calculate_aggregates
        (rs.filter (fun r => r.error.isNone))).overall_min_z) ∧
    ((Processor.calculate_aggregates rs).overall_max_z =
      (Processor.calculate_aggregates
        (rs.filter (fun r => r.error.isNone))).overall_max_z) ∧
    ((Processor.calculate_aggregates rs).total_file_size_mb =
      if (rs.filter (fun r => r.error.isNone)).isEmpty then 0
      else (rs.map (fun r => r.file_size_mb)).sum) := by
  have hvv := filter_idem (fun r : Processor.LASFileInfo => r.error.isNone) rs
  by_cases he : (rs.filter (fun r => r.error.isNone)).isEmpty
  · have hveq : rs.filter (fun r => r.error.isNone) = [] := List.isEmpty_iff.1 he
    simp [Processor.calculate_aggregates, hveq]
  · simp [Processor.calculate_aggregates, hvv, he]

/-- Dropping the error results from the input leaves every aggregate field of
the Python-only calculator unchanged — the return and classification totals
included — except `total_file_size_mb`, which sums the sizes of all results
whenever at least one valid result exists. -/
theorem pyonly_error_isolation (rs : List PyOnly.LASFileInfo) :
    ((PyOnly.calculate_aggregates rs).total_points =
      (PyOnly.calculate_aggregates
        (rs.filter (fun r => r.error.isNone))).total_points) ∧
    ((PyOnly.calculate_aggregates rs).avg_point_density =
      (PyOnly.calculate_aggregates
        (rs.filter (fun r => r.error.isNone))).avg_point_density) ∧
    ((PyOnly.calculate_aggregates rs).overall_min_x =
      (PyOnly.calculate_aggregates
        (rs.filter (fun r => r.error.isNone))).overall_min_x) ∧
    ((PyOnly.calculate_aggregates rs).overall_max_x =
      (PyOnly.calculate_aggregates
        (rs.filter (fun r => r.error.isNone))).overall_max_x) ∧
    ((PyOnly.calculate_aggregates rs).overall_min_y =
      (PyOnly.calculate_aggregates
        (rs.filter (fun r => r.error.isNone))).overall_min_y) ∧
    ((PyOnly.calculate_aggregates rs).overall_max_y =
      (PyOnly.calculate_aggregates
        (rs.filter (fun r => r.error.isNone))).overall_max_y) ∧
    ((PyOnly.calculate_aggregates rs).overall_min_z =
      (PyOnly.calculate_aggregates
        (rs.filter (fun r => r.error.isNone))).overall_min_z) ∧
    ((PyOnly.calculate_aggregates rs).overall_max_z =
      (PyOnly.calculate_aggregates
        (rs.filter (fun r => r.error.isNone))).overall_max_z) ∧
    ((PyOnly.calculate_aggregates rs).total_returns_1 =
      (PyOnly.calculate_aggregates
        (rs.filter (fun r => r.error.isNone))).total_returns_1) ∧
    ((PyOnly.calculate_aggregates rs).total_returns_2 =
      (PyOnly.calculate_aggregates
        (rs.filter (fun r => r.error.isNone))).total_returns_2) ∧
    ((PyOnly.calculate_aggregates rs).total_returns_3 =
      (PyOnly.calculate_aggregates
        (rs.filter (fun r => r.error.isNone))).total_returns_3) ∧
    ((PyOnly.calculate_aggregates rs).total_returns_4 =
      (PyOnly.calculate_aggregates
        (rs.filter (fun r => r.error.isNone))).total_returns_4) ∧
    ((PyOnly.calculate_aggregates rs).total_returns_5 =
      (PyOnly.calculate_aggregates
        (rs.filter (fun r => r.error.isNone))).total_returns_5) ∧
    ((PyOnly.calculate_aggregates rs).total_classification_unclassified =
      (PyOnly.calculate_aggregates
        (rs.filter (fun r => r.error.isNone))).total_classification_unclassified) ∧
    ((PyOnly.calculate_aggregates rs).total_classification_ground =
      (PyOnly.calculate_aggregates
        (rs.filter (fun r => r.error.isNone))).total_classification_ground) ∧
    ((PyOnly.calculate_aggregates rs).total_classification_low_vegetation =
      (PyOnly.calculate_aggregates
        (rs.filter (fun r => r.error.isNone))).total_classification_low_vegetation) ∧
    ((PyOnly.calculate_aggregates rs).total_classification_medium_vegetation =
      (PyOnly.calculate_aggregates
        (rs.filter (fun r => r.error.isNone))).total_classification_medium_vegetation) ∧
    ((PyOnly.calculate_aggregates rs).total_classification_high_vegetation =
      (PyOnly.calculate_aggregates
        (rs.filter (fun r => r.error.isNone))).total_classification_high_vegetation) ∧
    ((PyOnly.calculate_aggregates rs).total_classification_building =
      (PyOnly.calculate_aggregates
        (rs.filter (fun r => r.error.isNone))).total_classification_building) ∧
    ((PyOnly.calculate_aggregates rs).total_classification_water =
      (PyOnly.calculate_aggregates
        (rs.filter (fun r => r.error.isNone))).total_classification_water) ∧
    ((PyOnly.calculate_aggregates rs).total_classification_noise =
      (PyOnly.calculate_aggregates
        (rs.filter (fun r => r.error.isNone))).total_classification_noise) ∧
    ((PyOnly.calculate_aggregates rs).total_classification_key_point =
      (PyOnly.calculate_aggregates
        (rs.filter (fun r => r.error.isNone))).total_classification_key_point) ∧
    ((PyOnly.calculate_aggregates rs).total_classification_reserved =
      (PyOnly.calculate_aggregates
        (rs.filter (fun r => r.error.isNone))).total_classification_reserved) ∧
    ((PyOnly.calculate_aggregates rs).total_file_size_mb =
      if (rs.filter (fun r => r.error.isNone)).isEmpty then 0
      else (rs.map (fun r => r.file_size_mb)).sum) := by
  have hvv := filter_idem (fun r : PyOnly.LASFileInfo => r.error.isNone) rs
  by_cases he : (rs.filter (fun r => r.error.isNone)).isEmpty
  · have hveq : rs.filter (fun r => r.error.isNone) = [] := List.isEmpty_iff.1 he
    simp [PyOnly.calculate_aggregates, PyOnly.empty_aggregates, hveq]
  · simp [PyOnly.calculate_aggregates, hvv, he]

/-- C1 counterexample: one valid 1 MB result plus one error result of 5 MB
give `total_file_size_mb = 6`, while the valid result alone gives 1: the
size of the error result does contribute to an AggregateStats numeric sum, so the
claim is false as stated. -/
theorem C1_counterexample :
    (Processor.calculate_aggregates
      [{ filename := "a", filepath := "a", file_size_mb := 1 },
       { filename := "b", filepath := "b", file_size_mb := 5,
         error := some "read failed" }]).total_file_size_mb = 6 ∧
    (Processor.calculate_aggregates
      [{ filename := "a", filepath := "a",
         file_size_mb := 1 }]).total_file_size_mb = 1 := by
  constructor
  · norm_num [Processor.calculate_aggregates]
  · norm_num [Processor.calculate_aggregates]

/-- C1 (amended): in both processor variants, a result with a non-empty
error contributes to none of the aggregate numeric sums — total points,
average density, global bounds, and (Python-only) return/classification
totals — with the single exception of `total_file_size_mb`, which is summed
over all results, error results included, whenever at least one error-free
result exists (and is 0 otherwise). -/
theorem C1_error_result_isolation (rs1 : List Processor.LASFileInfo)
    (rs2 : List PyOnly.LASFileInfo) :
    (((Processor.calculate_aggregates rs1).total_points =
      (Processor.calculate_aggregates
        (rs1.filter (fun r => r.error.isNone))).total_points) ∧
    ((Processor.calculate_aggregates rs1).avg_point_density =
      (Processor.calculate_aggregates
        (rs1.filter (fun r => r.error.isNone))).avg_point_density) ∧
    ((Processor.calculate_aggregates rs1).overall_min_x =
      (Processor.calculate_aggregates
        (rs1.filter (fun r => r.error.isNone))).overall_min_x) ∧
    ((Processor.calculate_aggregates rs1).overall_max_x =
      (Processor.calculate_aggregates
        (rs1.filter (fun r => r.error.isNone))).overall_max_x) ∧
    ((Processor.calculate_aggregates rs1).overall_min_y =
      (Processor.calculate_aggregates
        (rs1.filter (fun r => r.error.isNone))).overall_min_y) ∧
    ((Processor.calculate_aggregates rs1).overall_max_y =
      (Processor.calculate_aggregates
        (rs1.filter (fun r => r.error.isNone))).overall_max_y) ∧
    ((Processor.calculate_aggregates rs1).overall_min_z =
      (Processor.calculate_aggregates
        (rs1.filter (fun r => r.error.isNone))).overall_min_z) ∧
    ((Processor.calculate_aggregates rs1).overall_max_z =
      (Processor.calculate_aggregates
        (rs1.filter (fun r => r.error.isNone))).overall_max_z) ∧
    ((Processor.calculate_aggregates rs1).total_file_size_mb =
      if (rs1.filter (fun r => r.error.isNone)).isEmpty then 0
      else (rs1.map (fun r => r.file_size_mb)).sum)) ∧
    (((PyOnly.calculate_aggregates rs2).total_points =
      (PyOnly.calculate_aggregates
        (rs2.filter (fun r => r.error.isNone))).total_points) ∧
    ((PyOnly.calculate_aggregates rs2).avg_point_density =
      (PyOnly.calculate_aggregates
        (rs2.filter (fun r => r.error.isNone))).avg_point_density) ∧
    ((PyOnly.calculate_aggregates rs2).overall_min_x =
      (PyOnly.calculate_aggregates
        (rs2.filter (fun r => r.error.isNone))).overall_min_x) ∧
    ((PyOnly.calculate_aggregates rs2).overall_max_x =
      (PyOnly.calculate_aggregates
        (rs2.filter (fun r => r.error.isNone))).overall_max_x) ∧
    ((PyOnly.calculate_aggregates rs2).overall_min_y =
      (PyOnly.calculate_aggregates
        (rs2.filter (fun r => r.error.isNone))).overall_min_y) ∧
    ((PyOnly.calculate_aggregates rs2).overall_max_y =
      (PyOnly.calculate_aggregates
        (rs2.filter (fun r => r.error.isNone))).overall_max_y) ∧
    ((PyOnly.calculate_aggregates rs2).overall_min_z =
      (PyOnly.calculate_aggregates
        (rs2.filter (fun r => r.error.isNone))).overall_min_z) ∧
    ((PyOnly.calculate_aggregates rs2).overall_max_z =
      (PyOnly.calculate_aggregates
        (rs2.filter (fun r => r.error.isNone))).overall_max_z) ∧
    ((PyOnly.calculate_aggregates rs2).total_returns_1 =
      (PyOnly.calculate_aggregates
        (rs2.filter (fun r => r.error.isNone))).total_returns_1) ∧
    ((PyOnly.calculate_aggregates rs2).total_returns_2 =
      (PyOnly.calculate_aggregates
        (rs2.filter (fun r => r.error.isNone))).total_returns_2) ∧
    ((PyOnly.calculate_aggregates rs2).total_returns_3 =
      (PyOnly.calculate_aggregates
        (rs2.filter (fun r => r.error.isNone))).total_returns_3) ∧
    ((PyOnly.calculate_aggregates rs2).total_returns_4 =
      (PyOnly.calculate_aggregates
        (rs2.filter (fun r => r.error.isNone))).total_returns_4) ∧
    ((PyOnly.calculate_aggregates rs2).total_returns_5 =
      (PyOnly.calculate_aggregates
        (rs2.filter (fun r => r.error.isNone))).total_returns_5) ∧
    ((PyOnly.calculate_aggregates rs2).total_classification_unclassified =
      (PyOnly.calculate_aggregates
        (rs2.filter (fun r => r.error.isNone))).total_classification_unclassified) ∧
    ((PyOnly.calculate_aggregates rs2).total_classification_ground =
      (PyOnly.calculate_aggregates
        (rs2.filter (fun r => r.error.isNone))).total_classification_ground) ∧
    ((PyOnly.calculate_aggregates rs2).total_classification_low_vegetation =
      (PyOnly.calculate_aggregates
        (rs2.filter (fun r => r.error.isNone))).total_classification_low_vegetation) ∧
    ((PyOnly.calculate_aggregates rs2).total_classification_medium_vegetation =
      (PyOnly.calculate_aggregates
        (rs2.filter (fun r => r.error.isNone))).total_classification_medium_vegetation) ∧
    ((PyOnly.calculate_aggregates rs2).total_classification_high_vegetation =
      (PyOnly.calculate_aggregates
        (rs2.filter (fun r => r.error.isNone))).total_classification_high_vegetation) ∧
    ((PyOnly.calculate_aggregates rs2).total_classification_building =
      (PyOnly.calculate_aggregates
        (rs2.filter (fun r => r.error.isNone))).total_classification_building) ∧
    ((PyOnly.calculate_aggregates rs2).total_classification_water =
      (PyOnly.calculate_aggregates
        (rs2.filter (fun r => r.error.isNone))).total_classification_water) ∧
    ((PyOnly.calculate_aggregates rs2).total_classification_noise =
      (PyOnly.calculate_aggregates
        (rs2.filter (fun r => r.error.isNone))).total_classification_noise) ∧
    ((PyOnly.calculate_aggregates rs2).total_classification_key_point =
      (PyOnly.calculate_aggregates
        (rs2.filter (fun r => r.error.isNone))).total_classification_key_point) ∧
    ((PyOnly.calculate_aggregates rs2).total_classification_reserved =
      (PyOnly.calculate_aggregates
        (rs2.filter (fun r => r.error.isNone))).total_classification_reserved) ∧
    ((PyOnly.calculate_aggregates rs2).total_file_size_mb =
      if (rs2.filter (fun r => r.error.isNone)).isEmpty then 0
      else (rs2.map (fun r => r.file_size_mb)).sum)) :=
  ⟨processor_error_isolation rs1, pyonly_error_isolation rs2⟩

/-- C8: the shoelace area of the convex-hull vertices of the rectangle with
corners (0,0), (0,100), (100,100), (100,0) — listed in the counterclockwise
boundary order scipy produces — is exactly 10000 raw square units, and with
unit meters the acreage conversion lands within 0.001 of 2.47105 acres. -/
theorem C8_rectangle_hull_area :
    Processor.polygon_area [(0, 0), (100, 0), (100, 100), (0, 100)] = 10000 ∧
    |Processor.acres_from_hull_area 10000 "meters" - 247105/100000| < 1/1000 := by
  constructor
  · have hr : List.range 4 = [0, 1, 2, 3] := rfl
    simp only [Processor.polygon_area]
    norm_num [hr, List.getD]
  · simp only [Processor.acres_from_hull_area]
    rw [if_neg (by decide), if_neg (by decide), abs_sub_lt_iff]
    constructor
    · norm_num
    · norm_num

/-- C7 witness: the all-error aggregate theorem instantiated at singleton
error lists for both processor variants. -/
theorem C7_witness :
    Processor.calculate_aggregates
        [{ filename := "x", filepath := "x", error := some "boom" }] =
      { total_files := 1, valid_files := 0, failed_files := 1
        total_points := 0, avg_point_density := 0, total_file_size_mb := 0
        overall_min_x := 0, overall_max_x := 0, overall_min_y := 0
        overall_max_y := 0, overall_min_z := 0, overall_max_z := 0 } ∧
    PyOnly.calculate_aggregates
        [{ filename := "y", filepath := "y", error := some "boom" }] =
      PyOnly.empty_aggregates 1 :=
  C7_all_error_aggregates
    [{ filename := "x", filepath := "x", error := some "boom" }]
    [{ filename := "y", filepath := "y", error := some "boom" }]
    (by simp) (by simp)

